import Mathlib

/-!
Shallow embedding of the Watchtower frontend SDK (lib/watchtower.js) and the
claims about it.  JavaScript numbers are modelled as rationals, with NaN
represented by `none` where a number-typed slot can hold NaN.  The cooperative
single-threaded event loop is modelled by atomic synchronous slices: every
`async` function runs uninterrupted up to its first `await`, and continuations
run atomically when the awaited promise settles.
-/

namespace Watchtower

/-- A JavaScript value as it can appear in a parsed JSON response body.
`undefined` stands for an absent field (the result of optional chaining on a
missing property). `num` carries a rational: JSON cannot denote NaN or
Infinity, so every JSON number is finite. -/
inductive JSVal : Type where
  | null : JSVal
  | undefined : JSVal
  | bool (b : Bool) : JSVal
  | num (q : ℚ) : JSVal
  | str (s : String) : JSVal
  | arr (xs : List JSVal) : JSVal

/-- JavaScript truthiness: null, undefined, false, 0 and the empty string are
falsy; every other value here (including any array) is truthy. -/
def truthy : JSVal → Bool
  | .null => false
  | .undefined => false
  | .bool b => b
  | .num q => decide (q ≠ 0)
  | .str s => decide (s ≠ "")
  | .arr _ => true

/-- The JavaScript `||` operator: first operand if truthy, else the second. -/
def jsOr (a b : JSVal) : JSVal := if truthy a then a else b

/-- The JavaScript `??` (nullish coalescing) operator: second operand only
when the first is null or undefined. -/
def jsNullish (a b : JSVal) : JSVal :=
  match a with
  | .null => b
  | .undefined => b
  | _ => a

/-- Value of a run of decimal digits (most significant first); an empty run
counts as 0, matching the `"5."` and `".5"` forms accepted by `Number`. -/
def digitsVal (cs : List Char) : ℕ :=
  cs.foldl (fun n c => 10 * n + (c.toNat - 48)) 0

/-- Parse an unsigned decimal literal (digits, optional point, digits, at
least one digit overall) as `Number` does; anything else is NaN (`none`). -/
def parseDecimalCore (cs : List Char) : Option ℚ :=
  let intPart := cs.takeWhile (·.isDigit)
  let rest := cs.dropWhile (·.isDigit)
  match rest with
  | [] => if intPart.isEmpty then none else some (digitsVal intPart)
  | '.' :: frac =>
      if frac.all (·.isDigit) ∧ ¬(intPart.isEmpty ∧ frac.isEmpty) then
        some ((digitsVal intPart : ℚ) + (digitsVal frac : ℚ) / (10 ^ frac.length))
      else none
  | _ => none

/-- The string-to-number part of the JavaScript `Number` coercion, for the
whitespace-trimmed signed finite decimal forms; the exotic forms (hex,
exponent, Infinity) are outside every input considered here and map to NaN. -/
def jsStringToNumber (s : String) : Option ℚ :=
  match (s.trim).toList with
  | [] => some 0
  | '+' :: rest => parseDecimalCore rest
  | '-' :: rest => (parseDecimalCore rest).map (fun q => -q)
  | cs => parseDecimalCore cs

/-- The JavaScript `Number(x)` coercion; `none` is NaN.  A nonempty array
coerces through its joined string form, which no input of this development
exercises; it is conservatively mapped to NaN here, while `Number([])` is 0. -/
def jsToNumber : JSVal → Option ℚ
  | .null => some 0
  | .undefined => none
  | .bool b => some (if b then 1 else 0)
  | .num q => some q
  | .str s => jsStringToNumber s
  | .arr [] => some 0
  | .arr (_ :: _) => none

/-- A policy object as built by `refreshPolicy`: the three block flags hold
the raw (not boolean-coerced) JSON values, read later through truthiness; the
three thresholds went through `Number(...)`, so each is a number or NaN. -/
structure Policy : Type where
  blockToxicity : JSVal
  blockSexual : JSVal
  blockNsfwImages : JSVal
  toxicityThreshold : Option ℚ
  sexualThreshold : Option ℚ
  nsfwThreshold : Option ℚ

/-- `DEFAULT_POLICY` from watchtower.js. -/
def DEFAULT_POLICY : Policy :=
  { blockToxicity := .bool true
    blockSexual := .bool true
    blockNsfwImages := .bool true
    toxicityThreshold := some 0.85
    sexualThreshold := some 0.85
    nsfwThreshold := some 0.85 }

/-- The fields of the parsed JSON body of a `/v1/policy` response; a field the
body lacks is `undefined`. -/
structure PolicyBody : Type where
  blockToxicity : JSVal := .undefined
  blockSexual : JSVal := .undefined
  blockNsfwImages : JSVal := .undefined
  toxicityThreshold : JSVal := .undefined
  sexualThreshold : JSVal := .undefined
  nsfwThreshold : JSVal := .undefined

/-- The policy object built from a successfully fetched body in
`refreshPolicy`: `json?.field ?? default` then, for thresholds, `Number(...)`. -/
def parsePolicy (json : PolicyBody) : Policy :=
  { blockToxicity := jsNullish json.blockToxicity (.bool true)
    blockSexual := jsNullish json.blockSexual (.bool true)
    blockNsfwImages := jsNullish json.blockNsfwImages (.bool true)
    toxicityThreshold := jsToNumber (jsNullish json.toxicityThreshold (.num 0.85))
    sexualThreshold := jsToNumber (jsNullish json.sexualThreshold (.num 0.85))
    nsfwThreshold := jsToNumber (jsNullish json.nsfwThreshold (.num 0.85)) }

/-- The moderation mode enumeration of the SDK configuration. -/
inductive ModerationMode : Type where
  | ON_DEVICE_ONLY : ModerationMode
  | CLOUD_ONLY : ModerationMode
  | HYBRID : ModerationMode
deriving Repr, DecidableEq

/-- A fully populated SDK configuration, as held in `this.config`. -/
structure WatchtowerConfig : Type where
  apiBaseUrl : String
  sendEvents : Bool
  policyRefreshSeconds : ℚ
  mode : ModerationMode
  timeoutMs : ℚ
deriving Repr, DecidableEq

/-- `DEFAULT_CONFIG` from watchtower.js. -/
def DEFAULT_CONFIG : WatchtowerConfig :=
  { apiBaseUrl := "http://localhost:8080"
    sendEvents := true
    policyRefreshSeconds := 60
    mode := .HYBRID
    timeoutMs := 20000 }

/-- The caller-supplied configuration object: every field optional. -/
structure ConfigOverrides : Type where
  apiBaseUrl : Option String := none
  sendEvents : Option Bool := none
  policyRefreshSeconds : Option ℚ := none
  mode : Option ModerationMode := none
  timeoutMs : Option ℚ := none

/-- The spread `{...DEFAULT_CONFIG, ...(config || {})}` in the constructor:
each field the caller supplied overrides the default. -/
def mergeConfig (c : ConfigOverrides) : WatchtowerConfig :=
  { apiBaseUrl := c.apiBaseUrl.getD DEFAULT_CONFIG.apiBaseUrl
    sendEvents := c.sendEvents.getD DEFAULT_CONFIG.sendEvents
    policyRefreshSeconds := c.policyRefreshSeconds.getD DEFAULT_CONFIG.policyRefreshSeconds
    mode := c.mode.getD DEFAULT_CONFIG.mode
    timeoutMs := c.timeoutMs.getD DEFAULT_CONFIG.timeoutMs }

/-- Caller-supplied content metadata, passed through verbatim. -/
structure ContentMeta : Type where
  userId : Option String := none
  sessionId : Option String := none
  contentId : Option String := none
  locale : Option String := none
  channel : Option String := none
deriving Repr, DecidableEq

/-- How a single remote HTTP attempt, bounded by `withTimeout`, turns out.
`timeout` is the deadline abort, `aborted` an external-signal abort, and
`transportError` any other rejection of `fetch`; `httpError` is a completed
response with `res.ok` false; `malformedBody` is a 2xx response whose
`res.json()` rejects; `success` carries the parsed body. -/
inductive RemoteOutcome (β : Type) : Type where
  | timeout : RemoteOutcome β
  | aborted : RemoteOutcome β
  | transportError : RemoteOutcome β
  | httpError : RemoteOutcome β
  | malformedBody : RemoteOutcome β
  | success (body : β) : RemoteOutcome β
deriving Repr, DecidableEq

/-- Every outcome except a parsed 2xx body counts as a failed attempt. -/
def RemoteOutcome.isFailure {β : Type} : RemoteOutcome β → Bool
  | .success _ => false
  | _ => true

/-- The mutable policy state of a `WatchtowerClient`: `cachedPolicy` and
`policyLastFetchMs` as in the constructor, and `policyRefreshPromise`
modelling `this._policyRefreshPromise` — `some (id, fb)` when a refresh
promise is pending, where `id` is the identity of that promise object and
`fb` the `safeApiCall` fallback argument `this.cachedPolicy`, captured when
the call was made.  `refreshFetchCount` is model bookkeeping: the number of
refresh promises ever created, which is also the number of policy network
requests issued, since creating the promise starts exactly one fetch; it
doubles as the allocator of promise identities. -/
structure StoreState : Type where
  cachedPolicy : Policy
  policyLastFetchMs : ℚ
  policyRefreshPromise : Option (ℕ × Policy)
  refreshFetchCount : ℕ

/-- The client as built by `new WatchtowerClient(apiKey, config)`. -/
structure WatchtowerClient : Type where
  apiKey : String
  config : WatchtowerConfig
  store : StoreState

/-- The policy state installed by the constructor: `{...DEFAULT_POLICY}`,
`policyLastFetchMs = 0`, `_policyRefreshPromise = null`. -/
def initialStoreState : StoreState :=
  { cachedPolicy := DEFAULT_POLICY
    policyLastFetchMs := 0
    policyRefreshPromise := none
    refreshFetchCount := 0 }

/-- `new WatchtowerClient(apiKey, config)`: merge the configuration over the
defaults and install the initial policy state. -/
def WatchtowerClient.construct (apiKey : String) (config : Option ConfigOverrides) :
    WatchtowerClient :=
  { apiKey := apiKey
    config := mergeConfig (config.getD {})
    store := initialStoreState }

/-- The synchronous prefix of `refreshPolicy()`, up to its first suspension:
if `this._policyRefreshPromise` is set, the caller simply returns that same
promise (no state change, no network call); otherwise the caller creates the
promise — whose body runs synchronously through `withTimeout` and the start
of `fetch`, so the network request is issued within this same atomic slice —
and stores it.  Returns the new state and the identity of the promise this
caller now awaits. -/
def refreshPolicyStart (s : StoreState) : StoreState × ℕ :=
  match s.policyRefreshPromise with
  | some pending => (s, pending.1)
  | none =>
      ({ s with
          policyRefreshPromise := some (s.refreshFetchCount, s.cachedPolicy)
          refreshFetchCount := s.refreshFetchCount + 1 },
        s.refreshFetchCount)

/-- The continuation of the pending refresh once its fetch settles with
outcome `o` at wall-clock time `now`, together with the creating caller
clearing `this._policyRefreshPromise = null` in its `finally`.  On a non-2xx
response the body returns `this.cachedPolicy`; on any thrown failure
(timeout, abort, transport error, malformed body) `safeApiCall` returns its
captured fallback; on success the parsed policy is stored and
`this.policyLastFetchMs = Date.now()`.  The returned policy is the settlement
value that every caller holding this promise receives. -/
def refreshPolicySettle (s : StoreState) (now : ℚ) (o : RemoteOutcome PolicyBody) :
    StoreState × Policy :=
  match s.policyRefreshPromise with
  | none => (s, s.cachedPolicy)
  | some pending =>
      match o with
      | .httpError => ({ s with policyRefreshPromise := none }, s.cachedPolicy)
      | .success json =>
          let policy := parsePolicy json
          ({ s with
              cachedPolicy := policy
              policyLastFetchMs := now
              policyRefreshPromise := none },
            policy)
      | _ => ({ s with policyRefreshPromise := none }, pending.2)

/-- One call to `refreshPolicy()` run to completion: the synchronous prefix,
then the settlement of the (single) in-flight fetch with outcome `o`. -/
def refreshPolicy (s : StoreState) (now : ℚ) (o : RemoteOutcome PolicyBody) :
    StoreState × Policy :=
  refreshPolicySettle (refreshPolicyStart s).1 now o

/-- `n` callers invoke `refreshPolicy()` back to back, each running its
synchronous prefix atomically before the pending fetch can settle; returns
the resulting state and, per caller, the identity of the promise awaited. -/
def refreshCallers : ℕ → StoreState → StoreState × List ℕ
  | 0, s => (s, [])
  | n + 1, s =>
      let first := refreshPolicyStart s
      let rest := refreshCallers n first.1
      (rest.1, first.2 :: rest.2)

/-- The concurrent-refresh scenario: `n` callers request a refresh while the
fetch is outstanding, then the fetch settles with outcome `o` at time `now`.
Returns the final state, the settlement value delivered to every caller of
the settled promise, and the list of promise identities the callers await. -/
def concurrentRefresh (s : StoreState) (n : ℕ) (now : ℚ) (o : RemoteOutcome PolicyBody) :
    StoreState × Policy × List ℕ :=
  let started := refreshCallers n s
  let settled := refreshPolicySettle started.1 now o
  (settled.1, settled.2, started.2)

/-- `_getPolicyMaybeRefresh()`: refresh when the cache age exceeds the
window, else return the cached policy with no network activity. -/
def getPolicyMaybeRefresh (cfg : WatchtowerConfig) (s : StoreState) (now : ℚ)
    (o : RemoteOutcome PolicyBody) : StoreState × Policy :=
  let ageMs := now - s.policyLastFetchMs
  if ageMs > cfg.policyRefreshSeconds * 1000 then refreshPolicy s now o
  else (s, s.cachedPolicy)

/-- The fields of the parsed JSON body of a `/checkText` response; a field
the body lacks (or a null body) reads as `undefined` through `json?.`. -/
structure TextBody : Type where
  isTextPermitted : JSVal := .undefined

/-- `checkText(text, meta)` run to completion.  The whole body is wrapped in
`safeApiCall("checkText", true, ...)`, so any thrown failure resolves to
`true`; a non-2xx response returns `true` explicitly; on a parsed body the
raw value `json?.isTextPermitted ?? true` is returned.  `po` is the outcome
of the policy fetch should `_getPolicyMaybeRefresh` trigger one (a policy
refresh failure is absorbed inside `refreshPolicy` and never aborts the text
check), and `tOut` the outcome of the classification request.  The telemetry
emission is fire-and-forget (`.catch(() => {})`) and cannot affect the
returned value, so it is not modelled here. -/
def checkText (cfg : WatchtowerConfig) (s : StoreState) (now : ℚ)
    (po : RemoteOutcome PolicyBody) (text : String) (meta : ContentMeta)
    (tOut : RemoteOutcome TextBody) : StoreState × JSVal :=
  let s' := (getPolicyMaybeRefresh cfg s now po).1
  match tOut with
  | .timeout => (s', .bool true)
  | .aborted => (s', .bool true)
  | .transportError => (s', .bool true)
  | .httpError => (s', .bool true)
  | .malformedBody => (s', .bool true)
  | .success json => (s', jsNullish json.isTextPermitted (.bool true))

/-- The argument given to `checkImageJpeg`: one of the three byte-bearing
representations the SDK accepts, or any other value. -/
inductive ImageInput : Type where
  | uint8Array (bytes : List ℕ) : ImageInput
  | arrayBuffer (bytes : List ℕ) : ImageInput
  | blob (bytes : List ℕ) : ImageInput
  | other : ImageInput

/-- `toUint8Array(data)`: the three supported representations normalize to
their raw bytes; anything else throws. -/
def toUint8Array : ImageInput → Except String (List ℕ)
  | .uint8Array bytes => .ok bytes
  | .arrayBuffer bytes => .ok bytes
  | .blob bytes => .ok bytes
  | .other => .error "Unsupported image input. Use Blob, ArrayBuffer, or Uint8Array."

/-- The fields of the parsed JSON body of a `/v1/moderate/image` response. -/
structure ImageBody : Type where
  decision : JSVal := .undefined
  nsfwScore : JSVal := .undefined
  reasons : JSVal := .undefined

/-- An `ImageModerationResult` as built by `checkImageJpeg`: `decision` is
the raw `json?.decision || "ALLOW"` value; `nsfwScore` passed a
`typeof === "number"` check or is null (`none`); `reasons` passed an
`Array.isArray` check or was replaced by `[]`. -/
structure ImageModerationResult : Type where
  decision : JSVal
  nsfwScore : Option ℚ
  reasons : List JSVal

/-- The `safeApiCall` fallback of `checkImageJpeg`. -/
def sdkNetworkErrorResult : ImageModerationResult :=
  { decision := .str "ALLOW", nsfwScore := none, reasons := [.str "sdk_network_error"] }

/-- The result returned on a completed but non-2xx image response. -/
def cloudUnavailableResult : ImageModerationResult :=
  { decision := .str "ALLOW", nsfwScore := none, reasons := [.str "cloud_unavailable"] }

/-- `_applyPolicyToImageResult(result, policy)`: when
`policy.blockNsfwImages && typeof result.nsfwScore === "number" &&
result.nsfwScore >= policy.nsfwThreshold` (a comparison against a NaN
threshold is false), force BLOCK and append `"policy_nsfw"`; otherwise return
the result unchanged. -/
def applyPolicyToImageResult (result : ImageModerationResult) (policy : Policy) :
    ImageModerationResult :=
  if truthy policy.blockNsfwImages then
    match result.nsfwScore with
    | some score =>
        match policy.nsfwThreshold with
        | some threshold =>
            if threshold ≤ score then
              { result with
                  decision := .str "BLOCK"
                  reasons := result.reasons ++ [.str "policy_nsfw"] }
            else result
        | none => result
    | none => result
  else result

/-- `checkImageJpeg(jpeg, meta)` run to completion.  The whole body is
wrapped in `safeApiCall` with the `sdk_network_error` ALLOW fallback, so both
a thrown `toUint8Array` error and any thrown network failure resolve to that
fallback; a completed non-2xx response returns the `cloud_unavailable` ALLOW
result; a parsed body is coerced field by field and then passed through
`_applyPolicyToImageResult` with the policy obtained from
`_getPolicyMaybeRefresh`.  Telemetry is fire-and-forget and not modelled. -/
def checkImageJpeg (cfg : WatchtowerConfig) (s : StoreState) (now : ℚ)
    (po : RemoteOutcome PolicyBody) (jpeg : ImageInput) (meta : ContentMeta)
    (iOut : RemoteOutcome ImageBody) : StoreState × ImageModerationResult :=
  let fetched := getPolicyMaybeRefresh cfg s now po
  let s' := fetched.1
  let policy := fetched.2
  match toUint8Array jpeg with
  | .error _ => (s', sdkNetworkErrorResult)
  | .ok _bytes =>
      match iOut with
      | .timeout => (s', sdkNetworkErrorResult)
      | .aborted => (s', sdkNetworkErrorResult)
      | .transportError => (s', sdkNetworkErrorResult)
      | .httpError => (s', cloudUnavailableResult)
      | .malformedBody => (s', sdkNetworkErrorResult)
      | .success json =>
          let nsfwScore : Option ℚ :=
            match json.nsfwScore with
            | .num q => some q
            | _ => none
          let reasons : List JSVal :=
            match json.reasons with
            | .arr xs => xs
            | _ => []
          let decision : JSVal := jsOr json.decision (.str "ALLOW")
          let result : ImageModerationResult :=
            { decision := decision, nsfwScore := nsfwScore, reasons := reasons }
          (s', applyPolicyToImageResult result policy)

/-! Helper lemmas shared by several claim theorems. -/

/-- Settling the pending refresh always leaves no pending promise behind:
the creating caller clears the handle in its `finally` on every outcome. -/
theorem refreshPolicySettle_clears_promise (s : StoreState) (now : ℚ)
    (o : RemoteOutcome PolicyBody) :
    (refreshPolicySettle s now o).1.policyRefreshPromise = none := by
  unfold refreshPolicySettle
  cases h : s.policyRefreshPromise with
  | none => simpa using h
  | some pending => cases o <;> rfl

/-- Settling a refresh issues no further network call. -/
theorem refreshPolicySettle_count (s : StoreState) (now : ℚ)
    (o : RemoteOutcome PolicyBody) :
    (refreshPolicySettle s now o).1.refreshFetchCount = s.refreshFetchCount := by
  unfold refreshPolicySettle
  cases s.policyRefreshPromise with
  | none => rfl
  | some pending => cases o <;> rfl

/-- A full `refreshPolicy()` run started with no pending promise, whose fetch
fails in any way, issues one fetch, keeps the cached policy and its
timestamp, clears the promise, and hands every caller the previous policy. -/
theorem refreshPolicy_failure_spec (s : StoreState) (now : ℚ)
    (o : RemoteOutcome PolicyBody) (hfree : s.policyRefreshPromise = none)
    (hfail : o.isFailure = true) :
    refreshPolicy s now o =
      ({ s with
          policyRefreshPromise := none
          refreshFetchCount := s.refreshFetchCount + 1 },
        s.cachedPolicy) := by
  unfold refreshPolicy refreshPolicyStart refreshPolicySettle
  rw [hfree]
  cases o <;> simp_all [RemoteOutcome.isFailure]

/-- Claim C3 — for every failed policy refresh (non-2xx response, timeout,
transport error, or malformed body), `refreshPolicy` returns the previously
cached policy unchanged, does not replace `cachedPolicy`, does not advance
`policyLastFetchMs`, and clears the in-flight handle so that the next stale
access triggers a new refresh attempt. -/
theorem refreshPolicy_failure_keeps_cache (s : StoreState) (now : ℚ)
    (o : RemoteOutcome PolicyBody) (hfree : s.policyRefreshPromise = none)
    (hfail : o.isFailure = true) :
    (refreshPolicy s now o).2 = s.cachedPolicy ∧
    (refreshPolicy s now o).1.cachedPolicy = s.cachedPolicy ∧
    (refreshPolicy s now o).1.policyLastFetchMs = s.policyLastFetchMs ∧
    (refreshPolicy s now o).1.policyRefreshPromise = none := by
  rw [refreshPolicy_failure_spec s now o hfree hfail]
  exact ⟨rfl, rfl, rfl, rfl⟩

/-- Witness for C3: a concrete failed refresh (non-2xx) from the initial
state leaves the default policy and timestamp 0 in place and returns it. -/
theorem refreshPolicy_failure_keeps_cache_witness :
    (refreshPolicy initialStoreState 123456 .httpError).2 = initialStoreState.cachedPolicy ∧
    (refreshPolicy initialStoreState 123456 .httpError).1.cachedPolicy =
      initialStoreState.cachedPolicy ∧
    (refreshPolicy initialStoreState 123456 .httpError).1.policyLastFetchMs =
      initialStoreState.policyLastFetchMs ∧
    (refreshPolicy initialStoreState 123456 .httpError).1.policyRefreshPromise = none :=
  refreshPolicy_failure_keeps_cache initialStoreState 123456 .httpError rfl rfl

/-- Claim C4 — whenever the cache age `now - policyLastFetchMs` is at most
`policyRefreshSeconds * 1000` milliseconds, the get-or-refresh operation is
the identity on the store (in particular it issues zero network calls) and
returns the previously cached policy unchanged. -/
theorem getPolicyMaybeRefresh_fresh_no_fetch (cfg : WatchtowerConfig)
    (s : StoreState) (now : ℚ) (o : RemoteOutcome PolicyBody)
    (hfresh : now - s.policyLastFetchMs ≤ cfg.policyRefreshSeconds * 1000) :
    getPolicyMaybeRefresh cfg s now o = (s, s.cachedPolicy) ∧
    (getPolicyMaybeRefresh cfg s now o).1.refreshFetchCount = s.refreshFetchCount := by
  have heq : getPolicyMaybeRefresh cfg s now o = (s, s.cachedPolicy) := by
    unfold getPolicyMaybeRefresh
    exact if_neg (not_lt.mpr hfresh)
  exact ⟨heq, by rw [heq]⟩

/-- Witness for C4: at age exactly equal to the window (60 s from the
initial timestamp 0), no refresh happens and the default policy is
returned. -/
theorem getPolicyMaybeRefresh_fresh_no_fetch_witness :
    getPolicyMaybeRefresh DEFAULT_CONFIG initialStoreState 60000 .timeout =
      (initialStoreState, initialStoreState.cachedPolicy) ∧
    (getPolicyMaybeRefresh DEFAULT_CONFIG initialStoreState 60000 .timeout).1.refreshFetchCount =
      initialStoreState.refreshFetchCount :=
  getPolicyMaybeRefresh_fresh_no_fetch DEFAULT_CONFIG initialStoreState 60000 .timeout
    (by norm_num [initialStoreState, DEFAULT_CONFIG])

/-- Claim C6 — local enforcement never downgrades a remote BLOCK: for every
remote result whose decision is BLOCK and every combination of score,
thresholds and toggles, the decision after `_applyPolicyToImageResult` is
still BLOCK. -/
theorem applyPolicy_never_downgrades_block (r : ImageModerationResult)
    (p : Policy) (hblock : r.decision = .str "BLOCK") :
    (applyPolicyToImageResult r p).decision = .str "BLOCK" := by
  unfold applyPolicyToImageResult
  repeat' split
  all_goals first | rfl | exact hblock

/-- Witness for C6: a concrete remote BLOCK with a score below the default
threshold stays BLOCK under the default policy. -/
theorem applyPolicy_never_downgrades_block_witness :
    (applyPolicyToImageResult
      { decision := .str "BLOCK", nsfwScore := some 0.2, reasons := [.str "mock_nsfw_detected"] }
      DEFAULT_POLICY).decision = .str "BLOCK" :=
  applyPolicy_never_downgrades_block _ DEFAULT_POLICY rfl

/-- While a refresh promise is pending, every further `refreshPolicy()`
caller leaves the state untouched (in particular issues no network call) and
attaches to that same pending promise. -/
theorem refreshPolicyStart_attaches (s : StoreState) (pid : ℕ) (fb : Policy)
    (hpending : s.policyRefreshPromise = some (pid, fb)) :
    refreshPolicyStart s = (s, pid) := by
  unfold refreshPolicyStart
  rw [hpending]

/-- Any number of callers arriving while a refresh promise is pending all
leave the state untouched and all await that same promise. -/
theorem refreshCallers_attached (n : ℕ) (s : StoreState) (pid : ℕ) (fb : Policy)
    (hpending : s.policyRefreshPromise = some (pid, fb)) :
    refreshCallers n s = (s, List.replicate n pid) := by
  induction n with
  | zero => rfl
  | succ m ih =>
      unfold refreshCallers
      rw [refreshPolicyStart_attaches s pid fb hpending]
      simp [ih, List.replicate]

/-- Claim C2 — single-flight refresh: when `n ≥ 1` callers request a policy
refresh while none is pending and the one in-flight fetch then settles,
exactly one network call is issued (`refreshFetchCount` rises by one), all
`n` callers await the one promise created by the first caller (so each
receives its single settlement value), and the in-flight handle is cleared
on every exit path, whatever the outcome `o`. -/
theorem concurrentRefresh_single_flight (s : StoreState) (n : ℕ) (now : ℚ)
    (o : RemoteOutcome PolicyBody) (hfree : s.policyRefreshPromise = none)
    (hn : 1 ≤ n) :
    (concurrentRefresh s n now o).1.refreshFetchCount = s.refreshFetchCount + 1 ∧
    (concurrentRefresh s n now o).2.2 = List.replicate n s.refreshFetchCount ∧
    (concurrentRefresh s n now o).1.policyRefreshPromise = none := by
  obtain ⟨m, rfl⟩ : ∃ m, n = m + 1 := ⟨n - 1, by omega⟩
  have hstart : refreshPolicyStart s =
      ({ s with
          policyRefreshPromise := some (s.refreshFetchCount, s.cachedPolicy)
          refreshFetchCount := s.refreshFetchCount + 1 },
        s.refreshFetchCount) := by
    unfold refreshPolicyStart
    rw [hfree]
  have hcallers : refreshCallers (m + 1) s =
      ({ s with
          policyRefreshPromise := some (s.refreshFetchCount, s.cachedPolicy)
          refreshFetchCount := s.refreshFetchCount + 1 },
        List.replicate (m + 1) s.refreshFetchCount) := by
    have hattach := refreshCallers_attached m
      { s with
          policyRefreshPromise := some (s.refreshFetchCount, s.cachedPolicy)
          refreshFetchCount := s.refreshFetchCount + 1 }
      s.refreshFetchCount s.cachedPolicy rfl
    unfold refreshCallers
    rw [hstart]
    simp [hattach, List.replicate]
  unfold concurrentRefresh
  rw [hcallers]
  refine ⟨?_, rfl, ?_⟩
  · rw [refreshPolicySettle_count]
  · exact refreshPolicySettle_clears_promise _ now o

/-- Witness for C2: three concurrent callers from the initial state with a
successful fetch — one network call, all three awaiting promise 0, handle
clear afterwards. -/
theorem concurrentRefresh_single_flight_witness :
    (concurrentRefresh initialStoreState 3 123456 (.success {})).1.refreshFetchCount =
      initialStoreState.refreshFetchCount + 1 ∧
    (concurrentRefresh initialStoreState 3 123456 (.success {})).2.2 =
      List.replicate 3 initialStoreState.refreshFetchCount ∧
    (concurrentRefresh initialStoreState 3 123456 (.success {})).1.policyRefreshPromise =
      none :=
  concurrentRefresh_single_flight initialStoreState 3 123456 (.success {}) rfl
    (by norm_num)

/-- Claim C5 — for every successful remote image response and every policy
scenario, if the policy in force has `blockNsfwImages` true and the remote
returned a numeric `nsfwScore` at or above its `nsfwThreshold`, then
`checkImageJpeg` ends with decision BLOCK and with `"policy_nsfw"` appended
at the end of the remote reasons sequence — whatever the remote decision
was, ALLOW included. -/
theorem checkImageJpeg_policy_nsfw_blocks (cfg : WatchtowerConfig)
    (s : StoreState) (now : ℚ) (po : RemoteOutcome PolicyBody)
    (jpeg : ImageInput) (bytes : List ℕ) (meta : ContentMeta)
    (json : ImageBody) (sc th : ℚ) (rs : List JSVal)
    (hok : toUint8Array jpeg = .ok bytes)
    (hsc : json.nsfwScore = .num sc)
    (hrs : json.reasons = .arr rs)
    (hflag : truthy (getPolicyMaybeRefresh cfg s now po).2.blockNsfwImages = true)
    (hth : (getPolicyMaybeRefresh cfg s now po).2.nsfwThreshold = some th)
    (hge : th ≤ sc) :
    (checkImageJpeg cfg s now po jpeg meta (.success json)).2 =
      { decision := .str "BLOCK"
        nsfwScore := some sc
        reasons := rs ++ [.str "policy_nsfw"] } := by
  unfold checkImageJpeg
  rw [hok]
  simp only [hsc, hrs]
  unfold applyPolicyToImageResult
  simp only [hflag, hth, if_true, if_pos hge]

/-- Witness for C5: score 0.9 against the default threshold 0.85 with the
default (fresh) policy forces BLOCK even though the remote said ALLOW. -/
theorem checkImageJpeg_policy_nsfw_blocks_witness :
    (checkImageJpeg DEFAULT_CONFIG initialStoreState 0 .timeout
        (.uint8Array [255, 216]) {}
        (.success { decision := .str "ALLOW", nsfwScore := .num 0.9, reasons := .arr [] })).2 =
      { decision := .str "BLOCK"
        nsfwScore := some 0.9
        reasons := [] ++ [.str "policy_nsfw"] } :=
  checkImageJpeg_policy_nsfw_blocks DEFAULT_CONFIG initialStoreState 0 .timeout
    (.uint8Array [255, 216]) [255, 216] {} _ 0.9 0.85 [] rfl rfl rfl
    (by norm_num [getPolicyMaybeRefresh, initialStoreState, DEFAULT_CONFIG, DEFAULT_POLICY, truthy])
    (by norm_num [getPolicyMaybeRefresh, initialStoreState, DEFAULT_CONFIG, DEFAULT_POLICY])
    (by norm_num)

/-- Claim C7 — for every text input and meta, `checkText` returns `true`
whenever the remote classification call times out, is aborted, throws a
transport error, or returns a non-2xx status; no infrastructure failure on
the text path surfaces to the caller. -/
theorem checkText_failopen_true (cfg : WatchtowerConfig) (s : StoreState)
    (now : ℚ) (po : RemoteOutcome PolicyBody) (text : String)
    (meta : ContentMeta) (tOut : RemoteOutcome TextBody)
    (hfail : tOut = .timeout ∨ tOut = .aborted ∨ tOut = .transportError ∨
      tOut = .httpError) :
    (checkText cfg s now po text meta tOut).2 = .bool true := by
  rcases hfail with h | h | h | h <;> rw [h] <;> rfl

/-- Witness for C7: a concrete timed-out classification call returns true. -/
theorem checkText_failopen_true_witness :
    (checkText DEFAULT_CONFIG initialStoreState 0 .timeout "hello" {} .timeout).2 =
      .bool true :=
  checkText_failopen_true DEFAULT_CONFIG initialStoreState 0 .timeout "hello" {}
    .timeout (Or.inl rfl)

/-- Counterexample to claim C8 as stated: a 2xx body whose permitted-flag is
the malformed (non-boolean) value `0` makes `checkText` return `0`, not
`true` — `??` only replaces null and undefined. -/
theorem checkText_malformed_flag_cex :
    (checkText DEFAULT_CONFIG initialStoreState 0 .timeout "x" {}
        (.success { isTextPermitted := .num 0 })).2 ≠ .bool true := by
  intro h
  exact JSVal.noConfusion h

/-- Claim C8, amended — for every 2xx `checkText` response body: a missing
permitted-flag (null or undefined) is interpreted as `true`, while a
malformed non-nullish value is returned verbatim rather than coerced. -/
theorem checkText_missing_flag_defaults_true (cfg : WatchtowerConfig)
    (s : StoreState) (now : ℚ) (po : RemoteOutcome PolicyBody) (text : String)
    (meta : ContentMeta) (json : TextBody) :
    ((json.isTextPermitted = .null ∨ json.isTextPermitted = .undefined) →
      (checkText cfg s now po text meta (.success json)).2 = .bool true) ∧
    (json.isTextPermitted ≠ .null → json.isTextPermitted ≠ .undefined →
      (checkText cfg s now po text meta (.success json)).2 = json.isTextPermitted) := by
  constructor
  · rintro (h | h) <;> simp [checkText, jsNullish, h]
  · intro h1 h2
    cases hv : json.isTextPermitted <;> simp_all [checkText, jsNullish]

/-- Witness for C8 (amended): a null permitted-flag yields true, and the
malformed value 0 passes through unchanged. -/
theorem checkText_missing_flag_defaults_true_witness :
    (checkText DEFAULT_CONFIG initialStoreState 0 .timeout "x" {}
        (.success { isTextPermitted := .null })).2 = .bool true ∧
    (checkText DEFAULT_CONFIG initialStoreState 0 .timeout "x" {}
        (.success { isTextPermitted := .num 0 })).2 = .num 0 :=
  ⟨(checkText_missing_flag_defaults_true DEFAULT_CONFIG initialStoreState 0 .timeout
      "x" {} { isTextPermitted := .null }).1 (Or.inl rfl),
    (checkText_missing_flag_defaults_true DEFAULT_CONFIG initialStoreState 0 .timeout
      "x" {} { isTextPermitted := .num 0 }).2 (by simp) (by simp)⟩

/-- Claim C9 — `checkImageJpeg` distinguishes its two fail-open outcomes:
a request that never completed (timeout, abort, thrown transport error)
yields decision ALLOW, no score, and reasons exactly
`["sdk_network_error"]`; a completed but non-2xx response yields decision
ALLOW, no score, and reasons exactly `["cloud_unavailable"]`. -/
theorem checkImageJpeg_distinct_failopen_reasons (cfg : WatchtowerConfig)
    (s : StoreState) (now : ℚ) (po : RemoteOutcome PolicyBody)
    (jpeg : ImageInput) (bytes : List ℕ) (meta : ContentMeta)
    (hok : toUint8Array jpeg = .ok bytes) :
    (checkImageJpeg cfg s now po jpeg meta .timeout).2 =
      { decision := .str "ALLOW", nsfwScore := none, reasons := [.str "sdk_network_error"] } ∧
    (checkImageJpeg cfg s now po jpeg meta .aborted).2 =
      { decision := .str "ALLOW", nsfwScore := none, reasons := [.str "sdk_network_error"] } ∧
    (checkImageJpeg cfg s now po jpeg meta .transportError).2 =
      { decision := .str "ALLOW", nsfwScore := none, reasons := [.str "sdk_network_error"] } ∧
    (checkImageJpeg cfg s now po jpeg meta .httpError).2 =
      { decision := .str "ALLOW", nsfwScore := none, reasons := [.str "cloud_unavailable"] } := by
    refine ⟨?_, ?_, ?_, ?_⟩ <;>
      · unfold checkImageJpeg
        rw [hok]
        rfl

/-- Witness for C9: a concrete byte array input under a timed-out and a
non-2xx image call produces the two distinct ALLOW reasons. -/
theorem checkImageJpeg_distinct_failopen_reasons_witness :
    (checkImageJpeg DEFAULT_CONFIG initialStoreState 0 .timeout
        (.uint8Array [1, 2, 3]) {} .timeout).2 =
      { decision := .str "ALLOW", nsfwScore := none, reasons := [.str "sdk_network_error"] } ∧
    (checkImageJpeg DEFAULT_CONFIG initialStoreState 0 .timeout
        (.uint8Array [1, 2, 3]) {} .aborted).2 =
      { decision := .str "ALLOW", nsfwScore := none, reasons := [.str "sdk_network_error"] } ∧
    (checkImageJpeg DEFAULT_CONFIG initialStoreState 0 .timeout
        (.uint8Array [1, 2, 3]) {} .transportError).2 =
      { decision := .str "ALLOW", nsfwScore := none, reasons := [.str "sdk_network_error"] } ∧
    (checkImageJpeg DEFAULT_CONFIG initialStoreState 0 .timeout
        (.uint8Array [1, 2, 3]) {} .httpError).2 =
      { decision := .str "ALLOW", nsfwScore := none, reasons := [.str "cloud_unavailable"] } :=
  checkImageJpeg_distinct_failopen_reasons DEFAULT_CONFIG initialStoreState 0 .timeout
    (.uint8Array [1, 2, 3]) [1, 2, 3] {} rfl

/-- Counterexample to claim C1 as stated: a value that is none of the three
supported representations does NOT surface a raised error from
`checkImageJpeg` — the call resolves to the fail-open ALLOW fallback,
because `toUint8Array` throws inside the `safeApiCall` wrapper. -/
theorem checkImageJpeg_unsupported_input_cex :
    (checkImageJpeg DEFAULT_CONFIG initialStoreState 0 .timeout .other {} .timeout).2 =
      { decision := .str "ALLOW", nsfwScore := none, reasons := [.str "sdk_network_error"] } :=
  rfl

/-- Claim C1, amended — for every input that is not one of the three
supported byte-bearing representations, `toUint8Array` itself raises the
unsupported-input error, but `checkImageJpeg` calls it inside its fail-open
wrapper, so the caller observes no raised failure: the call resolves to the
ALLOW fallback with reasons `["sdk_network_error"]`. -/
theorem checkImageJpeg_unsupported_input_fails_open (cfg : WatchtowerConfig)
    (s : StoreState) (now : ℚ) (po : RemoteOutcome PolicyBody)
    (meta : ContentMeta) (iOut : RemoteOutcome ImageBody) :
    toUint8Array .other =
      .error "Unsupported image input. Use Blob, ArrayBuffer, or Uint8Array." ∧
    (checkImageJpeg cfg s now po .other meta iOut).2 =
      { decision := .str "ALLOW", nsfwScore := none, reasons := [.str "sdk_network_error"] } :=
  ⟨rfl, rfl⟩

/-- Claim C10 — immediately after construction, for any key and any
configuration, `cachedPolicy` is the built-in default policy (all three
block toggles true, all three thresholds 0.85) and `policyLastFetchMs` is 0;
hence the first policy access attempts a refresh (for any wall clock beyond
the refresh window measured from epoch 0, which every real clock is), and as
long as every fetch fails each check call still operates under this default
policy. -/
theorem construct_default_policy_state :
    (∀ (apiKey : String) (config : Option ConfigOverrides),
      (WatchtowerClient.construct apiKey config).store = initialStoreState) ∧
    initialStoreState.cachedPolicy = DEFAULT_POLICY ∧
    DEFAULT_POLICY =
      { blockToxicity := .bool true
        blockSexual := .bool true
        blockNsfwImages := .bool true
        toxicityThreshold := some 0.85
        sexualThreshold := some 0.85
        nsfwThreshold := some 0.85 } ∧
    initialStoreState.policyLastFetchMs = 0 ∧
    (∀ (cfg : WatchtowerConfig) (now : ℚ) (o : RemoteOutcome PolicyBody),
      cfg.policyRefreshSeconds * 1000 < now →
      (getPolicyMaybeRefresh cfg initialStoreState now o).1.refreshFetchCount = 1) ∧
    (∀ (cfg : WatchtowerConfig) (now : ℚ) (o : RemoteOutcome PolicyBody),
      o.isFailure = true →
      (getPolicyMaybeRefresh cfg initialStoreState now o).2 = DEFAULT_POLICY ∧
      (getPolicyMaybeRefresh cfg initialStoreState now o).1.cachedPolicy =
        DEFAULT_POLICY) := by
  refine ⟨fun apiKey config => rfl, rfl, rfl, rfl, ?_, ?_⟩
  · intro cfg now o hnow
    have hcond : now - initialStoreState.policyLastFetchMs >
        cfg.policyRefreshSeconds * 1000 := by
      simpa [initialStoreState] using hnow
    unfold getPolicyMaybeRefresh
    rw [if_pos hcond]
    unfold refreshPolicy refreshPolicyStart
    rw [show initialStoreState.policyRefreshPromise = none from rfl]
    rw [refreshPolicySettle_count]
    rfl
  · intro cfg now o hfail
    by_cases hc : now - initialStoreState.policyLastFetchMs >
        cfg.policyRefreshSeconds * 1000
    · simp only [getPolicyMaybeRefresh]
      rw [if_pos hc, refreshPolicy_failure_spec initialStoreState now o rfl hfail]
      exact ⟨rfl, rfl⟩
    · simp only [getPolicyMaybeRefresh]
      rw [if_neg hc]
      exact ⟨rfl, rfl⟩

/-- Witness for C10: with the default configuration, at a realistic clock
value the first access issues the one fetch, and a timed-out fetch leaves
the default policy in force. -/
theorem construct_default_policy_state_witness :
    (WatchtowerClient.construct "key" none).store = initialStoreState ∧
    (getPolicyMaybeRefresh DEFAULT_CONFIG initialStoreState 1700000000000
        .timeout).1.refreshFetchCount = 1 ∧
    (getPolicyMaybeRefresh DEFAULT_CONFIG initialStoreState 1700000000000
        .timeout).2 = DEFAULT_POLICY :=
  ⟨construct_default_policy_state.1 "key" none,
    construct_default_policy_state.2.2.2.2.1 DEFAULT_CONFIG 1700000000000 .timeout
      (by norm_num [DEFAULT_CONFIG]),
    (construct_default_policy_state.2.2.2.2.2 DEFAULT_CONFIG 1700000000000 .timeout
      rfl).1⟩

end Watchtower
